import Mathlib

/-!
Shallow embedding of the Vwire IOT Arduino library core
(`VwireClass` in `Vwire.cpp`, declarations in `Vwire.h` / `VwireConfig.h`).

Machine state (`VwireSt`) combines the members of the single `VwireClass`
instance with the file-scope auto-registration globals
(`_vwireAutoWriteHandlers`, `_vwireAutoWriteCount`,
`_vwireAutoConnectHandler`, `_vwireAutoDisconnectHandler`).
C function pointers are modelled as `Nat` addresses, `0` playing the role
of `nullptr` (the source guards every call with `if (handler)`).
C strings are `List Char`; `unsigned long` clock arithmetic (32-bit on the
supported boards) is modelled by `sub32`.  External interactions
(transport, broker, callbacks) are recorded as an `Effect` trace.
-/

namespace Vwire

/-- `VWIRE_MAX_VIRTUAL_PINS` from VwireConfig.h. -/
def VWIRE_MAX_VIRTUAL_PINS : Nat := 128

/-- `VWIRE_MAX_HANDLERS` from VwireConfig.h. -/
def VWIRE_MAX_HANDLERS : Nat := 32

/-- `VWIRE_MAX_AUTO_HANDLERS` from Vwire.h. -/
def VWIRE_MAX_AUTO_HANDLERS : Nat := 32

/-- The `VwireState` enum from VwireConfig.h. -/
inductive VwireState where
  | idle
  | connectingWifi
  | connectingMqtt
  | connected
  | disconnected
  | error
deriving DecidableEq, Repr

/-- The `VwireError` enum from VwireConfig.h. -/
inductive VwireError where
  | errNone
  | noToken
  | wifiFailed
  | mqttFailed
  | notConnected
  | invalidPin
  | bufferFull
  | handlerFull
  | timeout
  | sslFailed
deriving DecidableEq, Repr

/-- `VwireClass::PinHandlerEntry`: one slot of the explicit handler table. -/
structure PinHandlerEntry where
  pin : Nat
  handler : Nat
  active : Bool
deriving DecidableEq, Repr

/-- `VwireAutoHandler`: one slot of the declarative (macro) handler table. -/
structure VwireAutoHandler where
  pin : Nat
  handler : Nat
deriving DecidableEq, Repr

/-- Whole-program mutable state: the `VwireClass` members relevant to the
connection/dispatch core together with the auto-registration globals. -/
structure VwireSt where
  state : VwireState
  lastError : VwireError
  authToken : List Char
  deviceId : List Char
  autoReconnect : Bool
  reconnectInterval : Nat
  heartbeatInterval : Nat
  lastHeartbeat : Nat
  lastReconnectAttempt : Nat
  startTime : Nat
  otaEnabled : Bool
  connectHandler : Nat
  disconnectHandler : Nat
  messageHandler : Nat
  autoConnectHandler : Nat
  autoDisconnectHandler : Nat
  pinHandlers : List PinHandlerEntry
  autoWriteHandlers : List VwireAutoHandler
deriving DecidableEq, Repr

/-- Per-poll environment: the host clock (`millis()`), the transport
reports (`_mqttClient.connected()`, `WiFi.status()`), the outcome the
transport would give to `_mqttClient.connect`, and the metrics read by
`_sendHeartbeat`. -/
structure Env where
  now : Nat
  mqttConnected : Bool
  wifiConnected : Bool
  connectResult : Bool
  freeHeap : Nat
  rssi : Int
deriving DecidableEq, Repr

/-- Observable interactions with the outside world, in program order. -/
inductive Effect where
  | pumpReceive
  | yieldHost
  | otaHandle
  | publish (topic : List Char) (payload : List Char) (retained : Bool)
  | transportDisconnect
  | transportConnect (clientId user pass willTopic : List Char)
      (willQoS : Nat) (willRetain : Bool) (willMsg : List Char)
  | subscribeTopic (t : List Char)
  | fireConnect (h : Nat)
  | fireDisconnect (h : Nat)
  | joinAttempt
deriving DecidableEq, Repr

/-- 32-bit unsigned subtraction `a - b`, as computed on `unsigned long`
values by expressions such as `now - _lastHeartbeat`. -/
def sub32 (a b : Nat) : Nat := (a + (2 ^ 32 - b % 2 ^ 32)) % 2 ^ 32

/-- Topic `vwire/<deviceId>/status`, as built both by
`_buildTopic("status")` and by the `snprintf` in `disconnect()`. -/
def statusTopic (d : List Char) : List Char :=
  ("vwire/").toList ++ d ++ ("/status").toList

/-- Topic `vwire/<deviceId>/heartbeat` from `_sendHeartbeat`. -/
def heartbeatTopic (d : List Char) : List Char :=
  ("vwire/").toList ++ d ++ ("/heartbeat").toList

/-- Topic `vwire/<deviceId>/cmd/#`, the command wildcard subscribed in
`_connectMQTT` (`_buildTopic("cmd") + "/#"`). -/
def cmdWildcardTopic (d : List Char) : List Char :=
  ("vwire/").toList ++ d ++ ("/cmd/#").toList

/-- The literal payload `{"status":"offline"}`. -/
def offlineMsg : List Char := ("\x7b\"status\":\"offline\"\x7d").toList

/-- The literal payload `{"status":"online"}`. -/
def onlineMsg : List Char := ("\x7b\"status\":\"online\"\x7d").toList

/-- `VwireClass::getUptime`: `(millis() - _startTime) / 1000`. -/
def getUptime (st : VwireSt) (now : Nat) : Nat :=
  sub32 now st.startTime / 1000

/-- The heartbeat JSON built by the `snprintf` in `_sendHeartbeat`. -/
def heartbeatPayload (uptime heap : Nat) (rssi : Int) : List Char :=
  ("\x7b\"uptime\":").toList ++ (toString uptime).toList ++
  (",\"heap\":").toList ++ (toString heap).toList ++
  (",\"rssi\":").toList ++ (toString rssi).toList ++ ("\x7d").toList

/-- `VwireClass::connected`:
`_state == VWIRE_STATE_CONNECTED && _mqttClient.connected()`. -/
def connected (st : VwireSt) (mqttConn : Bool) : Bool :=
  (st.state == VwireState.connected) && mqttConn

/-- `VwireClass::_sendHeartbeat` (the publish it performs, if any).
The early `if (!connected()) return;` uses the transport report from the
environment. -/
def sendHeartbeat (st : VwireSt) (env : Env) : List Effect :=
  if connected st env.mqttConnected then
    [Effect.publish (heartbeatTopic st.deviceId)
      (heartbeatPayload (getUptime st env.now) env.freeHeap env.rssi) false]
  else []

/-- `VwireClass::_connectMQTT`.  Returns the C `bool` result, the state
after the call, and the trace of transport interactions. -/
def connectMQTT (st : VwireSt) (env : Env) : Bool × VwireSt × List Effect :=
  if st.authToken = [] then
    (false, { st with lastError := VwireError.noToken }, [])
  else
    let st1 := { st with state := VwireState.connectingMqtt }
    let clientId := ("vwire-").toList ++ st.deviceId
    let willTopic := statusTopic st.deviceId
    let connEff := Effect.transportConnect clientId st.authToken st.authToken
      willTopic 1 true offlineMsg
    if env.connectResult then
      let st2 := { st1 with state := VwireState.connected, startTime := env.now }
      let fires :=
        (if st.connectHandler ≠ 0 then [Effect.fireConnect st.connectHandler] else []) ++
        (if st.autoConnectHandler ≠ 0 then [Effect.fireConnect st.autoConnectHandler] else [])
      (true, st2,
        [connEff,
         Effect.publish willTopic onlineMsg true,
         Effect.subscribeTopic (cmdWildcardTopic st.deviceId)] ++ fires)
    else
      (false, { st1 with state := VwireState.error, lastError := VwireError.mqttFailed },
        [connEff])

/-- `VwireClass::disconnect`.  `mqttConn` is the transport's
`_mqttClient.connected()` report at the moment of the call. -/
def disconnect (st : VwireSt) (mqttConn : Bool) : VwireSt × List Effect :=
  if mqttConn then
    ({ st with state := VwireState.disconnected },
      [Effect.publish (statusTopic st.deviceId) offlineMsg true,
       Effect.transportDisconnect])
  else
    ({ st with state := VwireState.disconnected }, [])

/-- The two disconnect-notification calls in `run`
(`_disconnectHandler` then `_vwireAutoDisconnectHandler`, each guarded
by a null check). -/
def fireDisconnects (st : VwireSt) : List Effect :=
  (if st.disconnectHandler ≠ 0 then [Effect.fireDisconnect st.disconnectHandler] else []) ++
  (if st.autoDisconnectHandler ≠ 0 then [Effect.fireDisconnect st.autoDisconnectHandler] else [])

/-- `VwireClass::run`: one poll of the cooperative scheduler.
`Effect.joinAttempt` marks the call into `_connectMQTT`. -/
def run (st : VwireSt) (env : Env) : VwireSt × List Effect :=
  if env.mqttConnected then
    if st.heartbeatInterval ≤ sub32 env.now st.lastHeartbeat then
      let st1 := { st with lastHeartbeat := env.now }
      (st1, Effect.pumpReceive :: sendHeartbeat st1 env)
    else
      (st, [Effect.pumpReceive])
  else
    let effA := Effect.yieldHost :: (if st.otaEnabled then [Effect.otaHandle] else [])
    if env.wifiConnected = false then
      if st.state = VwireState.connected then
        ({ st with state := VwireState.disconnected }, effA ++ fireDisconnects st)
      else
        (st, effA)
    else
      let p :=
        if st.state = VwireState.connected then
          ({ st with state := VwireState.disconnected }, fireDisconnects st)
        else
          (st, ([] : List Effect))
      let st1 := p.1
      if st1.autoReconnect then
        if st1.reconnectInterval ≤ sub32 env.now st1.lastReconnectAttempt then
          let st2 := { st1 with lastReconnectAttempt := env.now }
          let r := connectMQTT st2 env
          (r.2.1, effA ++ p.2 ++ (Effect.joinAttempt :: r.2.2))
        else
          (st1, effA ++ p.2)
      else
        (st1, effA ++ p.2)

/-- A sequence of polls: fold `run` over the environments, concatenating
the effect traces. -/
def runSeq (st : VwireSt) : List Env → VwireSt × List Effect
  | [] => (st, [])
  | e :: rest =>
    ((runSeq (run st e).1 rest).1, (run st e).2 ++ (runSeq (run st e).1 rest).2)

/-- Recognise a heartbeat publish for device `d`. -/
def isHeartbeatPub (d : List Char) : Effect → Bool
  | Effect.publish t _ _ => t == heartbeatTopic d
  | _ => false

/-- Number of heartbeat publishes in a trace. -/
def countHeartbeats (d : List Char) (l : List Effect) : Nat :=
  l.countP (isHeartbeatPub d)

/-- Recognise the marker of a `_connectMQTT` invocation. -/
def isJoinAttempt : Effect → Bool
  | Effect.joinAttempt => true
  | _ => false

/-- Number of broker-join attempts in a trace. -/
def countJoinAttempts (l : List Effect) : Nat :=
  l.countP isJoinAttempt

/-- Recognise a disconnect-notification firing. -/
def isFireDisconnect : Effect → Bool
  | Effect.fireDisconnect _ => true
  | _ => false

/-- Recognise a non-retained publish (used to refute "non-retained"). -/
def isNonRetainedPublish : Effect → Bool
  | Effect.publish _ _ r => !r
  | _ => false

/-- The command marker `"/cmd/"` searched for by `strstr` in
`_handleMessage`. -/
def cmdMarker : List Char := ("/cmd/").toList

/-- C `strstr`, returning the suffix of `hay` that starts at the first
occurrence of `needle` (the source then advances past the marker). -/
def strstrSuffix : List Char → List Char → Option (List Char)
  | [], needle => if needle.isPrefixOf ([] : List Char) then some [] else none
  | h :: t, needle =>
    if needle.isPrefixOf (h :: t) then some (h :: t) else strstrSuffix t needle

/-- The whitespace set skipped by C `atoi` (C locale `isspace`). -/
def isSpaceChar (c : Char) : Bool :=
  c = ' ' || c = '\t' || c = '\n' || c = '\x0b' || c = '\x0c' || c = '\r'

/-- Decimal value of a digit run. -/
def natOfDigits (l : List Char) : Nat :=
  l.foldl (fun a c => a * 10 + (c.toNat - 48)) 0

/-- C `atoi`: skip whitespace, accept one optional sign, read a maximal
digit run (empty run yields 0). -/
def atoiC (s : List Char) : Int :=
  match s.dropWhile isSpaceChar with
  | '-' :: r => -((natOfDigits (r.takeWhile Char.isDigit) : Nat) : Int)
  | '+' :: r => ((natOfDigits (r.takeWhile Char.isDigit) : Nat) : Int)
  | t => ((natOfDigits (t.takeWhile Char.isDigit) : Nat) : Int)

/-- The pin parse in `_handleMessage`: an optional leading `V`/`v` is
skipped, the rest goes through `atoi`. -/
def parsePinStr (s : List Char) : Int :=
  match s with
  | [] => atoiC []
  | c :: r => if c = 'V' ∨ c = 'v' then atoiC r else atoiC (c :: r)

/-- The first `for` loop of `_handleMessage` over `_pinHandlers`:
`none` means the loop ran off the end without a match; `some inv` means
an active matching entry was reached, `inv` being the (zero or one)
callback invocations made before the early `return`. -/
def scanExplicit (l : List PinHandlerEntry) (pin : Nat) (v : List Char) :
    Option (List (Nat × List Char)) :=
  match l with
  | [] => none
  | e :: rest =>
    if e.active && e.pin == pin then
      some (if e.handler ≠ 0 then [(e.handler, v)] else [])
    else
      scanExplicit rest pin v

/-- The second `for` loop of `_handleMessage` over
`_vwireAutoWriteHandlers`. -/
def scanAuto (l : List VwireAutoHandler) (pin : Nat) (v : List Char) :
    Option (List (Nat × List Char)) :=
  match l with
  | [] => none
  | e :: rest =>
    if e.pin == pin then
      some (if e.handler ≠ 0 then [(e.handler, v)] else [])
    else
      scanAuto rest pin v

/-- The dispatch tail of `_handleMessage` for an in-range pin: explicit
table first, declarative table only if no explicit entry matched. -/
def dispatchPin (exp : List PinHandlerEntry) (autoT : List VwireAutoHandler)
    (pin : Nat) (v : List Char) : List (Nat × List Char) :=
  match scanExplicit exp pin v with
  | some inv => inv
  | none =>
    match scanAuto autoT pin v with
    | some inv => inv
    | none => []

/-- Observable outcome of `_handleMessage`: the raw-observer call
(callback address, topic, truncated payload) and the channel-handler
invocations (callback address, truncated payload). -/
structure HandleResult where
  rawObserved : Option (Nat × List Char × List Char)
  invoked : List (Nat × List Char)
deriving DecidableEq, Repr

/-- `VwireClass::_handleMessage`, for `maxPayload` =
`VWIRE_MAX_PAYLOAD_LENGTH` of the target board.  Returns the (unchanged)
state and the observable outcome. -/
def handleMessage (st : VwireSt) (maxPayload : Nat)
    (topic payload : List Char) : VwireSt × HandleResult :=
  let payloadStr := payload.take (min (maxPayload - 1) payload.length)
  let raw :=
    if st.messageHandler ≠ 0 then some (st.messageHandler, topic, payloadStr) else none
  match strstrSuffix topic cmdMarker with
  | none => (st, ⟨raw, []⟩)
  | some suf =>
    let pinStr := suf.drop 5
    if pinStr = [] then (st, ⟨raw, []⟩)
    else
      let pin := parsePinStr pinStr
      if 0 ≤ pin ∧ pin < (VWIRE_MAX_VIRTUAL_PINS : Int) then
        (st, ⟨raw, dispatchPin st.pinHandlers st.autoWriteHandlers pin.toNat payloadStr⟩)
      else
        (st, ⟨raw, []⟩)

/-- `VwireClass::onVirtualWrite`: explicit registration. -/
def onVirtualWrite (st : VwireSt) (pin handler : Nat) : VwireSt :=
  if VWIRE_MAX_HANDLERS ≤ st.pinHandlers.length then
    { st with lastError := VwireError.handlerFull }
  else
    { st with pinHandlers := st.pinHandlers ++ [⟨pin, handler, true⟩] }

/-- `_vwireRegisterWriteHandler`: declarative (macro-driven)
registration into the global table. -/
def registerWriteHandler (st : VwireSt) (pin handler : Nat) : VwireSt :=
  if st.autoWriteHandlers.length < VWIRE_MAX_AUTO_HANDLERS then
    { st with autoWriteHandlers := st.autoWriteHandlers ++ [⟨pin, handler⟩] }
  else
    st

/-! ### Concrete states and environments used by witnesses and
counterexamples -/

/-- A configured, logically connected state with both disconnect
callbacks registered and a raw-message observer absent. -/
def stLive : VwireSt :=
  ⟨VwireState.connected, VwireError.errNone, ("tok").toList, ("dev").toList,
   true, 5000, 30000, 0, 0, 0, false, 0, 9, 0, 0, 8, [], []⟩

/-- An idle state whose credential token is empty. -/
def stNoToken : VwireSt :=
  ⟨VwireState.idle, VwireError.errNone, [], ("dev").toList,
   true, 5000, 30000, 0, 0, 0, false, 0, 0, 0, 0, 0, [], []⟩

/-- An arbitrary environment. -/
def envAny : Env := ⟨0, false, true, true, 0, 0⟩

/-- An explicit table filled to capacity. -/
def fullTable : List PinHandlerEntry := List.replicate 32 ⟨1, 4, true⟩

/-- A state whose explicit table is at capacity. -/
def stFullHandlers : VwireSt :=
  ⟨VwireState.idle, VwireError.errNone, ("t").toList, ("d").toList,
   true, 5000, 30000, 0, 0, 0, false, 0, 0, 0, 0, 0, fullTable, []⟩

/-- A declarative table filled to capacity. -/
def fullAuto : List VwireAutoHandler := List.replicate 32 ⟨1, 4⟩

/-- A state whose declarative table is at capacity. -/
def stFullAuto : VwireSt :=
  ⟨VwireState.idle, VwireError.errNone, ("t").toList, ("d").toList,
   true, 5000, 30000, 0, 0, 0, false, 0, 0, 0, 0, 0, [], fullAuto⟩

/-! ### Helper lemmas about the scheduler -/

/-- A connected poll before the heartbeat deadline only pumps the
receive path and changes nothing. -/
theorem run_connected_before (st : VwireSt) (env : Env)
    (hm : env.mqttConnected = true)
    (hlt : sub32 env.now st.lastHeartbeat < st.heartbeatInterval) :
    run st env = (st, [Effect.pumpReceive]) := by
  unfold run
  rw [hm]
  simp [Nat.not_le.mpr hlt]

/-- A connected poll at or past the heartbeat deadline updates the
timestamp first and then runs `_sendHeartbeat`. -/
theorem run_connected_at (st : VwireSt) (env : Env)
    (hm : env.mqttConnected = true)
    (hge : st.heartbeatInterval ≤ sub32 env.now st.lastHeartbeat) :
    run st env = ({ st with lastHeartbeat := env.now },
      Effect.pumpReceive :: sendHeartbeat { st with lastHeartbeat := env.now } env) := by
  unfold run
  rw [hm]
  simp [hge]

/-- `runSeq` distributes over concatenation of poll sequences. -/
theorem runSeq_append (st : VwireSt) (l1 l2 : List Env) :
    runSeq st (l1 ++ l2) =
      ((runSeq (runSeq st l1).1 l2).1,
        (runSeq st l1).2 ++ (runSeq (runSeq st l1).1 l2).2) := by
  induction l1 generalizing st with
  | nil => simp [runSeq]
  | cons e rest ih =>
    simp [runSeq, ih, List.append_assoc]

/-- No trace of pump-only polls contains a heartbeat publish. -/
theorem countHeartbeats_replicate (d : List Char) (n : Nat) :
    countHeartbeats d (List.replicate n Effect.pumpReceive) = 0 := by
  unfold countHeartbeats
  rw [List.countP_eq_zero]
  intro a ha
  rw [List.eq_of_mem_replicate ha]
  simp [isHeartbeatPub]

/-- Connected polls that all fall short of the heartbeat deadline leave
the state unchanged and emit only receive pumps. -/
theorem runSeq_noHeartbeat (pre : List Env) (st : VwireSt)
    (hpre : ∀ x ∈ pre, x.mqttConnected = true ∧
      sub32 x.now st.lastHeartbeat < st.heartbeatInterval) :
    runSeq st pre = (st, List.replicate pre.length Effect.pumpReceive) := by
  induction pre with
  | nil => rfl
  | cons e rest ih =>
    have he := hpre e (List.mem_cons_self e rest)
    have hrun := run_connected_before st e he.1 he.2
    have hrest := ih (fun x hx => hpre x (List.mem_cons_of_mem e hx))
    simp [runSeq, hrun, hrest, List.replicate_succ]

/-- `countJoinAttempts` is additive over trace concatenation. -/
theorem countJoinAttempts_append (a b : List Effect) :
    countJoinAttempts (a ++ b) = countJoinAttempts a + countJoinAttempts b :=
  List.countP_append _ a b

/-- The disconnect notifications contain no join attempt. -/
theorem countJoinAttempts_fireDisconnects (st : VwireSt) :
    countJoinAttempts (fireDisconnects st) = 0 := by
  unfold fireDisconnects
  split_ifs <;> simp [countJoinAttempts, isJoinAttempt]

/-- `_connectMQTT` emits no join-attempt marker of its own. -/
theorem countJoinAttempts_connectMQTT (st : VwireSt) (env : Env) :
    List.countP isJoinAttempt (connectMQTT st env).2.2 = 0 := by
  unfold connectMQTT
  split_ifs <;> simp [isJoinAttempt, List.countP_append, List.countP_cons]

/-- `_connectMQTT` never touches the last-reconnect-attempt timestamp. -/
theorem connectMQTT_lastReconnect (st : VwireSt) (env : Env) :
    (connectMQTT st env).2.1.lastReconnectAttempt = st.lastReconnectAttempt := by
  unfold connectMQTT
  split_ifs <;> rfl

/-- A disconnected poll (WiFi up) before the reconnect deadline makes no
join attempt and at most drops the state to `Disconnected`. -/
theorem run_disc_noAttempt (st : VwireSt) (env : Env)
    (hm : env.mqttConnected = false)
    (hw : env.wifiConnected = true)
    (hlt : sub32 env.now st.lastReconnectAttempt < st.reconnectInterval) :
    ((run st env).1 = st ∨
      (run st env).1 = { st with state := VwireState.disconnected }) ∧
    countJoinAttempts (run st env).2 = 0 := by
  unfold run
  rw [hm, hw]
  by_cases hst : st.state = VwireState.connected <;>
    by_cases har : st.autoReconnect = true <;>
      simp [hst, har, Nat.not_le.mpr hlt, countJoinAttempts, isJoinAttempt,
        countJoinAttempts_fireDisconnects, List.countP_append, List.countP_cons,
        fireDisconnects]

/-- A disconnected poll (WiFi up, auto-reconnect on) at or past the
reconnect deadline makes exactly one join attempt and stamps the attempt
time before the attempt, regardless of the attempt's outcome. -/
theorem run_disc_attempt (st : VwireSt) (env : Env)
    (hm : env.mqttConnected = false)
    (hw : env.wifiConnected = true)
    (har : st.autoReconnect = true)
    (hge : st.reconnectInterval ≤ sub32 env.now st.lastReconnectAttempt) :
    countJoinAttempts (run st env).2 = 1 ∧
    (run st env).1.lastReconnectAttempt = env.now := by
  unfold run
  rw [hm, hw]
  by_cases hst : st.state = VwireState.connected <;>
    simp [hst, har, hge, countJoinAttempts, isJoinAttempt, List.countP_append,
      List.countP_cons, fireDisconnects, connectMQTT_lastReconnect,
      countJoinAttempts_connectMQTT, apply_ite (List.countP isJoinAttempt)]

/-- Disconnected polls that all fall short of the reconnect deadline make
no join attempt and preserve the scheduler's reconnect bookkeeping. -/
theorem runSeq_noAttempt (pre : List Env) (st : VwireSt)
    (hpre : ∀ x ∈ pre, x.mqttConnected = false ∧ x.wifiConnected = true ∧
      sub32 x.now st.lastReconnectAttempt < st.reconnectInterval) :
    countJoinAttempts (runSeq st pre).2 = 0 ∧
    (runSeq st pre).1.lastReconnectAttempt = st.lastReconnectAttempt ∧
    (runSeq st pre).1.reconnectInterval = st.reconnectInterval ∧
    (runSeq st pre).1.autoReconnect = st.autoReconnect := by
  induction pre generalizing st with
  | nil => exact ⟨rfl, rfl, rfl, rfl⟩
  | cons e rest ih =>
    have he := hpre e (List.mem_cons_self e rest)
    obtain ⟨hcase, hcount⟩ := run_disc_noAttempt st e he.1 he.2.1 he.2.2
    rcases hcase with h1 | h1
    · have hrest := ih st (fun x hx => hpre x (List.mem_cons_of_mem e hx))
      simp only [runSeq, h1, countJoinAttempts_append, hcount, Nat.zero_add]
      exact hrest
    · have hrest := ih { st with state := VwireState.disconnected }
        (fun x hx => hpre x (List.mem_cons_of_mem e hx))
      simp only [runSeq, h1, countJoinAttempts_append, hcount, Nat.zero_add]
      exact hrest

/-! ### Temporal claim theorems (scheduler) -/

/-- Claim C5: across any run of connected polls, no heartbeat is
published while the elapsed time since the last heartbeat emission is
below the heartbeat interval, exactly one heartbeat publish occurs in the
first poll at or past the interval, and the last-heartbeat timestamp is
set to that poll's clock value. -/
theorem claim_C5_heartbeat (st : VwireSt) (pre : List Env) (e : Env)
    (hstate : st.state = VwireState.connected)
    (hpre : ∀ x ∈ pre, x.mqttConnected = true ∧
      sub32 x.now st.lastHeartbeat < st.heartbeatInterval)
    (hm : e.mqttConnected = true)
    (hge : st.heartbeatInterval ≤ sub32 e.now st.lastHeartbeat) :
    countHeartbeats st.deviceId (runSeq st pre).2 = 0 ∧
    countHeartbeats st.deviceId (runSeq st (pre ++ [e])).2 = 1 ∧
    (runSeq st (pre ++ [e])).1.lastHeartbeat = e.now := by
  have hq := runSeq_noHeartbeat pre st hpre
  have hrun := run_connected_at st e hm hge
  have hsh : sendHeartbeat { st with lastHeartbeat := e.now } e =
      [Effect.publish (heartbeatTopic st.deviceId)
        (heartbeatPayload (getUptime { st with lastHeartbeat := e.now } e.now)
          e.freeHeap e.rssi) false] := by
    simp [sendHeartbeat, connected, hstate, hm]
  refine ⟨?_, ?_, ?_⟩
  · rw [hq]
    exact countHeartbeats_replicate st.deviceId pre.length
  · rw [runSeq_append, hq]
    simp [runSeq, hrun, hsh, countHeartbeats, List.countP_append, List.countP_cons,
      isHeartbeatPub]
  · rw [runSeq_append, hq]
    simp [runSeq, hrun]

/-- The connected state used by the C5 witness (heartbeat interval 10,
last emission at 0). -/
def stC5 : VwireSt :=
  ⟨VwireState.connected, VwireError.errNone, ("t").toList, ("d").toList,
   true, 5000, 10, 0, 0, 0, false, 0, 0, 0, 0, 0, [], []⟩

/-- A connected poll at clock 3 (before the deadline). -/
def envHb1 : Env := ⟨3, true, true, false, 0, 0⟩

/-- A connected poll at clock 12 (past the deadline). -/
def envHb2 : Env := ⟨12, true, true, false, 0, 0⟩

/-- Witness for the C5 theorem on a concrete two-poll run. -/
theorem claim_C5_witness :
    countHeartbeats stC5.deviceId (runSeq stC5 [envHb1]).2 = 0 ∧
    countHeartbeats stC5.deviceId (runSeq stC5 ([envHb1] ++ [envHb2])).2 = 1 ∧
    (runSeq stC5 ([envHb1] ++ [envHb2])).1.lastHeartbeat = envHb2.now :=
  claim_C5_heartbeat stC5 [envHb1] envHb2 rfl (by decide) rfl (by decide)

/-- Claim C6: across any run of polls with the broker session down, the
network joined and auto-reconnect enabled, no join attempt occurs while
the elapsed time since the last attempt is below the reconnect interval,
exactly one join attempt occurs in the first poll at or past the
interval, and the last-attempt timestamp is set to that poll's clock
value no matter whether the attempt succeeds or fails. -/
theorem claim_C6_reconnect (st : VwireSt) (pre : List Env) (e : Env)
    (har : st.autoReconnect = true)
    (hpre : ∀ x ∈ pre, x.mqttConnected = false ∧ x.wifiConnected = true ∧
      sub32 x.now st.lastReconnectAttempt < st.reconnectInterval)
    (hm : e.mqttConnected = false)
    (hw : e.wifiConnected = true)
    (hge : st.reconnectInterval ≤ sub32 e.now st.lastReconnectAttempt) :
    countJoinAttempts (runSeq st pre).2 = 0 ∧
    countJoinAttempts (runSeq st (pre ++ [e])).2 = 1 ∧
    (runSeq st (pre ++ [e])).1.lastReconnectAttempt = e.now := by
  obtain ⟨hc0, hlast, hint, hauto⟩ := runSeq_noAttempt pre st hpre
  have hatt := run_disc_attempt (runSeq st pre).1 e hm hw
    (by rw [hauto]; exact har) (by rw [hint, hlast]; exact hge)
  refine ⟨hc0, ?_, ?_⟩
  · rw [runSeq_append, countJoinAttempts_append, hc0]
    simp [runSeq, countJoinAttempts_append, hatt.1]
  · rw [runSeq_append]
    simp [runSeq, hatt.2]

/-- The disconnected state used by the C6 witness (reconnect interval 10,
last attempt at 0). -/
def stC6 : VwireSt :=
  ⟨VwireState.disconnected, VwireError.errNone, ("t").toList, ("d").toList,
   true, 10, 30000, 0, 0, 0, false, 0, 0, 0, 0, 0, [], []⟩

/-- A disconnected poll at clock 4 (before the deadline). -/
def envRc1 : Env := ⟨4, false, true, false, 0, 0⟩

/-- A disconnected poll at clock 11 (past the deadline); the join attempt
fails (`connectResult = false`). -/
def envRc2 : Env := ⟨11, false, true, false, 0, 0⟩

/-- Witness for the C6 theorem on a concrete two-poll run with a failing
attempt. -/
theorem claim_C6_witness :
    countJoinAttempts (runSeq stC6 [envRc1]).2 = 0 ∧
    countJoinAttempts (runSeq stC6 ([envRc1] ++ [envRc2])).2 = 1 ∧
    (runSeq stC6 ([envRc1] ++ [envRc2])).1.lastReconnectAttempt = envRc2.now :=
  claim_C6_reconnect stC6 [envRc1] envRc2 rfl (by decide) rfl rfl (by decide)

/-! ### Helper lemmas about the dispatch loops -/

/-- The explicit-table loop realises a first-match search. -/
theorem scanExplicit_eq_find (l : List PinHandlerEntry) (pin : Nat) (v : List Char) :
    scanExplicit l pin v =
      (l.find? (fun e => e.active && e.pin == pin)).map
        (fun e => if e.handler ≠ 0 then [(e.handler, v)] else []) := by
  induction l with
  | nil => rfl
  | cons e rest ih =>
    by_cases h : (e.active && e.pin == pin) = true
    · simp [scanExplicit, List.find?_cons_of_pos _ h, h]
    · simp [scanExplicit, List.find?_cons_of_neg _ h, h, ih]

/-- The declarative-table loop realises a first-match search. -/
theorem scanAuto_eq_find (l : List VwireAutoHandler) (pin : Nat) (v : List Char) :
    scanAuto l pin v =
      (l.find? (fun e => e.pin == pin)).map
        (fun e => if e.handler ≠ 0 then [(e.handler, v)] else []) := by
  induction l with
  | nil => rfl
  | cons e rest ih =>
    by_cases h : (e.pin == pin) = true
    · simp [scanAuto, List.find?_cons_of_pos _ h, h]
    · simp [scanAuto, List.find?_cons_of_neg _ h, h, ih]

/-! ### Claim theorems -/

/-- Claim C1: `connected()` returns true iff the state machine state is
exactly `Connected` and the transport reports connected; it is false
whenever either side disagrees. -/
theorem claim_C1_connected_iff (st : VwireSt) (t : Bool) :
    connected st t = true ↔ (st.state = VwireState.connected ∧ t = true) := by
  cases t <;> simp [connected, beq_iff_eq]

/-- Claim C3 counterexample: `disconnect()` on a live session publishes
the offline status with the retain flag set to `true`, so no non-retained
offline publish occurs, contrary to the claim's "non-retained". -/
theorem claim_C3_cex :
    (disconnect stLive true).2 =
      [Effect.publish (statusTopic (("dev").toList)) offlineMsg true,
       Effect.transportDisconnect] ∧
    (disconnect stLive true).2.countP isNonRetainedPublish = 0 := by
  exact ⟨rfl, rfl⟩

/-- Claim C3 (amended): when a live session exists, `disconnect()`
synchronously publishes a **retained** offline status message, closes the
transport, sets state `Disconnected` unconditionally (also when no live
session exists), and fires no disconnect notification. -/
theorem claim_C3_disconnect_contract (st : VwireSt) :
    (disconnect st true).1.state = VwireState.disconnected ∧
    (disconnect st false).1.state = VwireState.disconnected ∧
    (disconnect st true).2 =
      [Effect.publish (statusTopic st.deviceId) offlineMsg true,
       Effect.transportDisconnect] ∧
    (disconnect st false).2 = [] ∧
    (disconnect st true).2.countP isFireDisconnect = 0 ∧
    (disconnect st false).2.countP isFireDisconnect = 0 := by
  exact ⟨rfl, rfl, rfl, rfl, rfl, rfl⟩

/-- Claim C4 counterexample: `_connectMQTT` with an empty token sets
Last Error to `NoToken` and attempts nothing, but leaves the connection
state unchanged (here `Idle`), contrary to the claim's "sets the
connection state to Error". -/
theorem claim_C4_cex :
    (connectMQTT stNoToken envAny).2.1.state = VwireState.idle ∧
    VwireState.idle ≠ VwireState.error ∧
    (connectMQTT stNoToken envAny).2.1.lastError = VwireError.noToken ∧
    (connectMQTT stNoToken envAny).1 = false ∧
    (connectMQTT stNoToken envAny).2.2 = [] := by
  exact ⟨rfl, by decide, rfl, rfl, rfl⟩

/-- Claim C4 (amended): with an empty credential token, a broker join
attempt fails (returns false) with Last Error set to `NoToken`, never
invokes the transport's session-connect primitive (the effect trace is
empty), and leaves the connection state unchanged — it does not set the
state to `Error`. -/
theorem claim_C4_noToken (st : VwireSt) (env : Env) (h : st.authToken = []) :
    connectMQTT st env = (false, { st with lastError := VwireError.noToken }, []) := by
  simp [connectMQTT, h]

/-- Witness for the amended C4 theorem at a concrete state. -/
theorem claim_C4_witness :
    connectMQTT stNoToken envAny =
      (false, { stNoToken with lastError := VwireError.noToken }, []) :=
  claim_C4_noToken stNoToken envAny rfl

/-- Claim C7: explicit registration at capacity sets the `RegistryFull`
error classification (`VWIRE_ERR_HANDLER_FULL`) and leaves the table
untouched; below capacity it appends the entry marked active. -/
theorem claim_C7_onVirtualWrite (st : VwireSt) (pin handler : Nat) :
    (VWIRE_MAX_HANDLERS ≤ st.pinHandlers.length →
      onVirtualWrite st pin handler = { st with lastError := VwireError.handlerFull }) ∧
    (st.pinHandlers.length < VWIRE_MAX_HANDLERS →
      onVirtualWrite st pin handler =
        { st with pinHandlers := st.pinHandlers ++ [⟨pin, handler, true⟩] }) := by
  constructor
  · intro h
    simp [onVirtualWrite, h]
  · intro h
    simp [onVirtualWrite, Nat.not_le.mpr h]

/-- Witness for the C7 theorem: a table at capacity 32 and one below. -/
theorem claim_C7_witness :
    onVirtualWrite stFullHandlers 3 7 =
      { stFullHandlers with lastError := VwireError.handlerFull } ∧
    onVirtualWrite stLive 3 7 =
      { stLive with pinHandlers := stLive.pinHandlers ++ [⟨3, 7, true⟩] } :=
  ⟨(claim_C7_onVirtualWrite stFullHandlers 3 7).1 (by decide),
   (claim_C7_onVirtualWrite stLive 3 7).2 (by decide)⟩

/-- Claim C10: a declarative registration into a full table is silently
ignored (state unchanged, so no entry written and no count change), the
error classification is never touched, and the table length can never
exceed the capacity of 32. -/
theorem claim_C10_registerWriteHandler (st : VwireSt) (pin handler : Nat) :
    (VWIRE_MAX_AUTO_HANDLERS ≤ st.autoWriteHandlers.length →
      registerWriteHandler st pin handler = st) ∧
    (registerWriteHandler st pin handler).lastError = st.lastError ∧
    (st.autoWriteHandlers.length ≤ VWIRE_MAX_AUTO_HANDLERS →
      (registerWriteHandler st pin handler).autoWriteHandlers.length ≤
        VWIRE_MAX_AUTO_HANDLERS) := by
  refine ⟨?_, ?_, ?_⟩
  · intro h
    simp [registerWriteHandler, Nat.not_lt.mpr h]
  · unfold registerWriteHandler
    split <;> rfl
  · intro h
    unfold registerWriteHandler
    split
    · rename_i hlt
      simp only [List.length_append, List.length_singleton]
      omega
    · simpa using h

/-- Witness for the C10 theorem at a table holding exactly 32 entries. -/
theorem claim_C10_witness :
    registerWriteHandler stFullAuto 3 7 = stFullAuto ∧
    (registerWriteHandler stFullAuto 3 7).autoWriteHandlers.length ≤
      VWIRE_MAX_AUTO_HANDLERS :=
  ⟨(claim_C10_registerWriteHandler stFullAuto 3 7).1 (by decide),
   (claim_C10_registerWriteHandler stFullAuto 3 7).2.2 (by decide)⟩

/-- Claim C2: dispatch for an in-range channel invokes at most one
handler; the explicit table is searched first in insertion order with the
first active matching entry winning, the declarative table is searched
(first match wins) only when no explicit entry matches, and with no match
anywhere the command is dropped; an explicit match makes the declarative
table irrelevant. -/
theorem claim_C2_dispatch (exp : List PinHandlerEntry) (autoT : List VwireAutoHandler)
    (c : Nat) (v : List Char)
    (hc : c < VWIRE_MAX_VIRTUAL_PINS)
    (hexp : ∀ e ∈ exp, e.handler ≠ 0)
    (hauto : ∀ e ∈ autoT, e.handler ≠ 0) :
    (dispatchPin exp autoT c v).length ≤ 1 ∧
    dispatchPin exp autoT c v =
      (match exp.find? (fun e => e.active && e.pin == c) with
       | some e => [(e.handler, v)]
       | none =>
         match autoT.find? (fun e => e.pin == c) with
         | some a => [(a.handler, v)]
         | none => []) ∧
    ((exp.find? (fun e => e.active && e.pin == c)).isSome →
      dispatchPin exp autoT c v = dispatchPin exp [] c v) := by
  rcases hfe : exp.find? (fun e => e.active && e.pin == c) with _ | e
  · have hse : scanExplicit exp c v = none := by
      rw [scanExplicit_eq_find, hfe]; rfl
    rcases hfa : autoT.find? (fun e => e.pin == c) with _ | a
    · have hsa : scanAuto autoT c v = none := by
        rw [scanAuto_eq_find, hfa]; rfl
      refine ⟨?_, ?_, ?_⟩
      · simp [dispatchPin, hse, hsa]
      · simp [dispatchPin, hse, hsa, hfe, hfa]
      · intro hs
        rw [hfe] at hs
        simp at hs
    · have ha : a.handler ≠ 0 := hauto a (List.mem_of_find?_eq_some hfa)
      have hsa : scanAuto autoT c v = some [(a.handler, v)] := by
        rw [scanAuto_eq_find, hfa]
        simp [ha]
      refine ⟨?_, ?_, ?_⟩
      · simp [dispatchPin, hse, hsa]
      · simp [dispatchPin, hse, hsa, hfe, hfa]
      · intro hs
        rw [hfe] at hs
        simp at hs
  · have he : e.handler ≠ 0 := hexp e (List.mem_of_find?_eq_some hfe)
    have hse : scanExplicit exp c v = some [(e.handler, v)] := by
      rw [scanExplicit_eq_find, hfe]
      simp [he]
    refine ⟨?_, ?_, ?_⟩
    · simp [dispatchPin, hse]
    · simp [dispatchPin, hse, hfe]
    · intro _
      simp [dispatchPin, hse]

/-- The explicit table used by the C2 witness. -/
def dpExp : List PinHandlerEntry := [⟨9, 4, true⟩, ⟨7, 5, true⟩, ⟨7, 6, true⟩]

/-- The declarative table used by the C2 witness. -/
def dpAuto : List VwireAutoHandler := [⟨7, 9⟩]

/-- Witness for the C2 theorem on concrete tables with a channel-7
command: the earliest active explicit entry wins over both a later
explicit duplicate and the declarative entry. -/
theorem claim_C2_witness :
    (dispatchPin dpExp dpAuto 7 (("42").toList)).length ≤ 1 ∧
    dispatchPin dpExp dpAuto 7 (("42").toList) =
      (match dpExp.find? (fun e => e.active && e.pin == 7) with
       | some e => [(e.handler, ("42").toList)]
       | none =>
         match dpAuto.find? (fun e => e.pin == 7) with
         | some a => [(a.handler, ("42").toList)]
         | none => []) ∧
    ((dpExp.find? (fun e => e.active && e.pin == 7)).isSome →
      dispatchPin dpExp dpAuto 7 (("42").toList) =
        dispatchPin dpExp [] 7 (("42").toList)) :=
  claim_C2_dispatch dpExp dpAuto 7 (("42").toList) (by decide) (by decide) (by decide)

/-- Claim C8: an inbound message whose topic holds the command marker but
whose parsed channel lies outside `0..127` invokes no handler, leaves the
whole state (hence Last Error) untouched, and still reaches the
raw-message observer with the full topic and truncated payload. -/
theorem claim_C8_outOfRange (st : VwireSt) (maxPayload : Nat)
    (topic payload suf : List Char)
    (hs : strstrSuffix topic cmdMarker = some suf)
    (hne : suf.drop 5 ≠ [])
    (hrange : ¬ (0 ≤ parsePinStr (suf.drop 5) ∧
        parsePinStr (suf.drop 5) < (VWIRE_MAX_VIRTUAL_PINS : Int))) :
    (handleMessage st maxPayload topic payload).1 = st ∧
    (handleMessage st maxPayload topic payload).2.invoked = [] ∧
    (st.messageHandler ≠ 0 →
      (handleMessage st maxPayload topic payload).2.rawObserved =
        some (st.messageHandler, topic,
          payload.take (min (maxPayload - 1) payload.length))) := by
  unfold handleMessage
  rw [hs]
  refine ⟨?_, ?_, ?_⟩
  · simp [hne, hrange]
  · simp [hne, hrange]
  · intro h
    simp [hne, hrange, h]

/-- The state used by the C8 witness: raw observer registered, one
explicit handler present. -/
def stMsg : VwireSt :=
  ⟨VwireState.connected, VwireError.errNone, ("tok").toList, ("x").toList,
   true, 5000, 30000, 0, 0, 0, false, 0, 0, 7, 0, 0, [⟨0, 5, true⟩], []⟩

/-- The out-of-range command topic of the C8 witness. -/
def topicV999 : List Char := ("vwire/x/cmd/V999").toList

/-- Witness for the C8 theorem at topic `vwire/x/cmd/V999`. -/
theorem claim_C8_witness :
    (handleMessage stMsg 512 topicV999 (("hi").toList)).1 = stMsg ∧
    (handleMessage stMsg 512 topicV999 (("hi").toList)).2.invoked = [] ∧
    (handleMessage stMsg 512 topicV999 (("hi").toList)).2.rawObserved =
      some (stMsg.messageHandler, topicV999,
        (("hi").toList).take (min (512 - 1) (("hi").toList).length)) := by
  have h := claim_C8_outOfRange stMsg 512 topicV999 (("hi").toList)
    (("/cmd/V999").toList) (by decide) (by decide) (by decide)
  exact ⟨h.1, h.2.1, h.2.2 (by decide)⟩

/-- The optional single-letter channel marker skip performed before the
`atoi` call in `_handleMessage`. -/
def afterVStrip (s : List Char) : List Char :=
  match s with
  | [] => []
  | c :: r => if c = 'V' ∨ c = 'v' then r else c :: r

/-- True when a string is empty or starts with a character on which
C `atoi` immediately stops: not whitespace, not a digit, not a sign. -/
def nonNumericStart (s : List Char) : Bool :=
  match s with
  | [] => true
  | c :: _ => !(isSpaceChar c) && !(c.isDigit) && !(c == '+') && !(c == '-')

/-- `atoi` yields 0 on inputs it cannot start parsing a number on. -/
theorem atoiC_nonNumeric (s : List Char) (h : nonNumericStart s = true) :
    atoiC s = 0 := by
  cases s with
  | nil => rfl
  | cons c r =>
    simp only [nonNumericStart, Bool.and_eq_true, Bool.not_eq_true'] at h
    obtain ⟨⟨⟨h1, h2⟩, h3⟩, h4⟩ := h
    have hdw : List.dropWhile isSpaceChar (c :: r) = c :: r := by
      simp [List.dropWhile_cons, h1]
    have hcp : c ≠ '+' := by
      intro hh
      rw [hh] at h3
      simp at h3
    have hcm : c ≠ '-' := by
      intro hh
      rw [hh] at h4
      simp at h4
    unfold atoiC
    rw [hdw]
    split
    · rename_i r' heq
      exact absurd (List.head_eq_of_cons_eq heq) hcm
    · rename_i r' heq
      exact absurd (List.head_eq_of_cons_eq heq) hcp
    · simp [List.takeWhile_cons, h2, natOfDigits]

/-- The pin parse yields 0 whenever the remainder after the optional
`V`/`v` skip is empty or starts on a non-numeric character. -/
theorem parsePinStr_zero (s : List Char) (h : nonNumericStart (afterVStrip s) = true) :
    parsePinStr s = 0 := by
  cases s with
  | nil => rfl
  | cons c r =>
    simp only [parsePinStr]
    by_cases hVv : c = 'V' ∨ c = 'v'
    · rw [if_pos hVv]
      exact atoiC_nonNumeric r (by simpa [afterVStrip, hVv] using h)
    · rw [if_neg hVv]
      exact atoiC_nonNumeric (c :: r) (by simpa [afterVStrip, hVv] using h)

/-- Claim C9 counterexample: for the command suffix `" 7"` — a non-empty
suffix that is neither digits nor a `V`/`v` prefix followed by digits —
the numeric parse yields 7, not 0, and a handler registered for channel 0
is not invoked (the message dispatches to channel 7 instead). -/
theorem claim_C9_cex :
    parsePinStr ([' ', '7']) = 7 ∧
    ((([' ', '7'] : List Char).all Char.isDigit) = false ∧ (' ' : Char) ≠ 'V' ∧
      (' ' : Char) ≠ 'v') ∧
    (handleMessage stMsg 512 (("a/cmd/ 7").toList) (("1").toList)).2.invoked = [] := by
  exact ⟨by decide, by decide, by decide⟩

/-- Claim C9 (amended): for a command suffix that, after stripping an
optional leading `V`/`v`, is empty or starts with a character that is not
a digit, not whitespace and not a `+`/`-` sign (e.g. `/cmd/abc` or a bare
`/cmd/V`), the numeric parse yields 0, which is in range, so the message
is dispatched on channel 0 (invoking a channel-0 handler when one is
registered) rather than dropped as malformed.  Suffixes beginning with
whitespace, a sign, or digits (e.g. `" 7"`) parse to other values. -/
theorem claim_C9_defaultParse (st : VwireSt) (maxPayload : Nat)
    (topic payload suf : List Char)
    (hs : strstrSuffix topic cmdMarker = some suf)
    (hne : suf.drop 5 ≠ [])
    (hcore : nonNumericStart (afterVStrip (suf.drop 5)) = true) :
    parsePinStr (suf.drop 5) = 0 ∧
    (handleMessage st maxPayload topic payload).2.invoked =
      dispatchPin st.pinHandlers st.autoWriteHandlers 0
        (payload.take (min (maxPayload - 1) payload.length)) := by
  have hp : parsePinStr (suf.drop 5) = 0 := parsePinStr_zero _ hcore
  constructor
  · exact hp
  · unfold handleMessage
    rw [hs]
    simp [hne, hp, VWIRE_MAX_VIRTUAL_PINS]

/-- Witness for the amended C9 theorem at topic `a/cmd/abc` with a
channel-0 handler registered: the handler (address 5) is invoked. -/
theorem claim_C9_witness :
    parsePinStr ((("/cmd/abc").toList).drop 5) = 0 ∧
    (handleMessage stMsg 512 (("a/cmd/abc").toList) (("1").toList)).2.invoked =
      dispatchPin stMsg.pinHandlers stMsg.autoWriteHandlers 0
        ((("1").toList).take (min (512 - 1) (("1").toList).length)) :=
  claim_C9_defaultParse stMsg 512 (("a/cmd/abc").toList) (("1").toList)
    (("/cmd/abc").toList) (by decide) (by decide) (by decide)

end Vwire
